import Mathlib

/-!
Verification of the Y90RS radioembolization score calculator (src/app.py).

The core of the program is three pure pieces:
* `calculate_meld3` (src/app.py lines 30-49): unit conversion, clamping and a
  logarithmic formula.  The clamping stage is embedded here exactly; the
  floating-point logarithm/rounding tail is not needed by the properties below,
  which concern the clamped values that feed the logarithms.
* `calculate_y90rs` (src/app.py lines 51-139): nine additive sub-scores.  The
  portal-vein dictionary lookup raises a fatal KeyError on an unknown key, so
  the embedding returns an `Option ℤ` that is `none` exactly on those inputs.
* the risk classifier inside `main` (src/app.py lines 273-284).

Numeric clinical inputs are Python floats used only in order comparisons and
exact divisions at the values of interest; they are embedded as rationals `ℚ`.
The MELD3 score and the ECOG status are integers in the program.
-/

namespace Y90RS

/-- Size and volume joint sub-score of `calculate_y90rs`
(src/app.py lines 58-67): the literal if/elif chain of the source. -/
def size_volume_score (tumor_size tumor_volume : ℚ) : ℤ :=
  if tumor_size ≤ 3 ∧ tumor_volume ≤ 100 then 0
  else if (tumor_size ≤ 5 ∧ tumor_volume ≤ 300) ∨ (tumor_size ≤ 3 ∧ tumor_volume ≤ 300) ∨
      (tumor_size ≤ 5 ∧ tumor_volume ≤ 100) then 1
  else if tumor_size ≤ 8 ∧ tumor_volume ≤ 500 then 2
  else 4

/-- AFP sub-score (src/app.py lines 70-77). -/
def afp_score (afp : ℚ) : ℤ :=
  if afp ≤ 20 then 0
  else if afp ≤ 400 then 1
  else if afp ≤ 1000 then 2
  else 3

/-- Portal-vein dictionary of `calculate_y90rs` (src/app.py lines 81-87).
A Python dict lookup on a string key; an absent key is a fatal KeyError,
embedded as `none`. -/
def portal_vein_scores (portal_vein_status : String) : Option ℤ :=
  if portal_vein_status = "No thrombosis" then some 0
  else if portal_vein_status = "Bland thrombosis" then some 1
  else if portal_vein_status = "Segmental tumor thrombosis" then some 2
  else if portal_vein_status = "Main/Lobar tumor thrombosis" then some 3
  else none

/-- Shunt-fraction sub-score (src/app.py lines 90-95). -/
def shunt_score (shunt_fraction : ℚ) : ℤ :=
  if shunt_fraction ≤ 5 then 0
  else if shunt_fraction ≤ 10 then 1
  else 2

/-- MELD 3.0 sub-score (src/app.py lines 99-104). -/
def meld3_score (meld3 : ℤ) : ℤ :=
  if meld3 ≤ 10 then 0
  else if meld3 ≤ 14 then 1
  else 2

/-- Albumin sub-score, inverted direction (src/app.py lines 107-112). -/
def albumin_score (albumin : ℚ) : ℤ :=
  if 35 ≤ albumin then 0
  else if 28 ≤ albumin then 1
  else 2

/-- ALT/AST ratio sub-score (src/app.py lines 115-120); the source thresholds
1.5 and 2.0 are the rationals 3/2 and 2. -/
def alt_ast_score (alt_ast_ratio : ℚ) : ℤ :=
  if alt_ast_ratio ≤ 3/2 then 0
  else if alt_ast_ratio ≤ 2 then 1
  else 2

/-- NLR sub-score (src/app.py lines 124-129); the source thresholds 2.5 and
4.0 are the rationals 5/2 and 4. -/
def nlr_score (nlr : ℚ) : ℤ :=
  if nlr ≤ 5/2 then 0
  else if nlr ≤ 4 then 1
  else 2

/-- ECOG sub-score (src/app.py lines 132-137). -/
def ecog_score (ecog : ℤ) : ℤ :=
  if ecog ≤ 1 then 0
  else if ecog = 2 then 1
  else 2

/-- `calculate_y90rs` (src/app.py lines 51-139): the sum of the nine
sub-scores; `none` exactly when the portal-vein dictionary lookup raises. -/
def calculate_y90rs (tumor_size tumor_volume afp : ℚ) (portal_vein_status : String)
    (shunt_fraction : ℚ) (meld3 : ℤ) (albumin alt_ast_ratio nlr : ℚ) (ecog : ℤ) : Option ℤ :=
  (portal_vein_scores portal_vein_status).map fun p =>
    size_volume_score tumor_size tumor_volume + afp_score afp + p +
      shunt_score shunt_fraction + meld3_score meld3 + albumin_score albumin +
      alt_ast_score alt_ast_ratio + nlr_score nlr + ecog_score ecog

/-- The risk classifier of `main` (src/app.py lines 273-284): category and
mortality band from the total score. -/
def risk_classify (score : ℤ) : String × String :=
  if score ≤ 6 then ("Low Risk", "<10%")
  else if score ≤ 12 then ("Intermediate Risk", "10-30%")
  else ("High Risk", ">30%")

/-- Converted and floored bilirubin of `calculate_meld3` (src/app.py lines
33 and 37): division by 17.1 = 171/10, then `max(1, _)`.  This is the first
logarithm argument of the MELD 3.0 formula (line 45). -/
def bilirubin_mgdl (bilirubin : ℚ) : ℚ :=
  max 1 (bilirubin / (171/10))

/-- Converted and clamped creatinine of `calculate_meld3` (src/app.py lines
34 and 38): division by 88.4 = 884/10, then `max(1, min(4, _))`.  This is the
third logarithm argument of the MELD 3.0 formula (line 47). -/
def creatinine_mgdl (creatinine : ℚ) : ℚ :=
  max 1 (min 4 (creatinine / (884/10)))

/-- Floored INR of `calculate_meld3` (src/app.py line 39): `max(1, inr)`.
This is the second logarithm argument of the MELD 3.0 formula (line 46). -/
def inr_clamped (inr : ℚ) : ℚ :=
  max 1 inr

/-- Clamped sodium of `calculate_meld3` (src/app.py line 40):
`max(125, min(137, sodium))`. -/
def sodium_clamped (sodium : ℚ) : ℚ :=
  max 125 (min 137 sodium)

/-- The size/volume sub-score with the second branch condition replaced by its
logical simplification: the three overlapping disjuncts of the source reduce
to the single first disjunct.  This definition follows the simplification the
spec warns against, to be compared with the literal `size_volume_score`. -/
def size_volume_score_simplified (tumor_size tumor_volume : ℚ) : ℤ :=
  if tumor_size ≤ 3 ∧ tumor_volume ≤ 100 then 0
  else if tumor_size ≤ 5 ∧ tumor_volume ≤ 300 then 1
  else if tumor_size ≤ 8 ∧ tumor_volume ≤ 500 then 2
  else 4

/-! ## Helper lemmas: bounds of the individual sub-scores -/

lemma size_volume_score_bounds (d v : ℚ) :
    0 ≤ size_volume_score d v ∧ size_volume_score d v ≤ 4 := by
  unfold size_volume_score
  split_ifs <;> norm_num

lemma afp_score_bounds (a : ℚ) : 0 ≤ afp_score a ∧ afp_score a ≤ 3 := by
  unfold afp_score
  split_ifs <;> norm_num

lemma portal_vein_scores_bounds (s : String) (p : ℤ)
    (h : portal_vein_scores s = some p) : 0 ≤ p ∧ p ≤ 3 := by
  unfold portal_vein_scores at h
  split_ifs at h <;> simp_all <;> omega

lemma shunt_score_bounds (s : ℚ) : 0 ≤ shunt_score s ∧ shunt_score s ≤ 2 := by
  unfold shunt_score
  split_ifs <;> norm_num

lemma meld3_score_bounds (m : ℤ) : 0 ≤ meld3_score m ∧ meld3_score m ≤ 2 := by
  unfold meld3_score
  split_ifs <;> norm_num

lemma albumin_score_bounds (a : ℚ) : 0 ≤ albumin_score a ∧ albumin_score a ≤ 2 := by
  unfold albumin_score
  split_ifs <;> norm_num

lemma alt_ast_score_bounds (r : ℚ) : 0 ≤ alt_ast_score r ∧ alt_ast_score r ≤ 2 := by
  unfold alt_ast_score
  split_ifs <;> norm_num

lemma nlr_score_bounds (x : ℚ) : 0 ≤ nlr_score x ∧ nlr_score x ≤ 2 := by
  unfold nlr_score
  split_ifs <;> norm_num

lemma ecog_score_bounds (e : ℤ) : 0 ≤ ecog_score e ∧ ecog_score e ≤ 2 := by
  unfold ecog_score
  split_ifs <;> norm_num

/-- The four portal-vein keys the source dictionary holds (src/app.py
lines 81-87), in order. -/
def portal_vein_keys : List String :=
  ["No thrombosis", "Bland thrombosis", "Segmental tumor thrombosis",
    "Main/Lobar tumor thrombosis"]

lemma portal_vein_scores_of_mem (s : String) (h : s ∈ portal_vein_keys) :
    ∃ p : ℤ, portal_vein_scores s = some p := by
  fin_cases h <;> exact ⟨_, rfl⟩

lemma calculate_y90rs_some (ts tv a : ℚ) (pvs : String) (sf : ℚ) (m : ℤ)
    (alb r x : ℚ) (e : ℤ) (p : ℤ) (hp : portal_vein_scores pvs = some p) :
    calculate_y90rs ts tv a pvs sf m alb r x e =
      some (size_volume_score ts tv + afp_score a + p + shunt_score sf +
        meld3_score m + albumin_score alb + alt_ast_score r + nlr_score x +
        ecog_score e) := by
  unfold calculate_y90rs
  rw [hp, Option.map_some']

/-- C1: for every valid input tuple (all numeric fields non-negative, the
portal vein status one of the four dictionary keys, ECOG in {0,1,2,3}),
`calculate_y90rs` returns an integer score with 0 ≤ score ≤ 23. -/
theorem y90rs_range_invariant (tumor_size tumor_volume afp : ℚ)
    (portal_vein_status : String) (shunt_fraction : ℚ) (meld3 : ℤ)
    (albumin alt_ast_ratio nlr : ℚ) (ecog : ℤ)
    (hts : 0 ≤ tumor_size) (htv : 0 ≤ tumor_volume) (hafp : 0 ≤ afp)
    (hpv : portal_vein_status ∈ portal_vein_keys)
    (hsf : 0 ≤ shunt_fraction) (hm : 0 ≤ meld3) (halb : 0 ≤ albumin)
    (hr : 0 ≤ alt_ast_ratio) (hn : 0 ≤ nlr)
    (he0 : 0 ≤ ecog) (he3 : ecog ≤ 3) :
    ∃ n : ℤ, calculate_y90rs tumor_size tumor_volume afp portal_vein_status
      shunt_fraction meld3 albumin alt_ast_ratio nlr ecog = some n ∧
      0 ≤ n ∧ n ≤ 23 := by
  obtain ⟨p, hp⟩ := portal_vein_scores_of_mem portal_vein_status hpv
  refine ⟨_, calculate_y90rs_some tumor_size tumor_volume afp portal_vein_status
    shunt_fraction meld3 albumin alt_ast_ratio nlr ecog p hp, ?_, ?_⟩ <;>
  · obtain ⟨h1, h2⟩ := size_volume_score_bounds tumor_size tumor_volume
    obtain ⟨h3, h4⟩ := afp_score_bounds afp
    obtain ⟨h5, h6⟩ := portal_vein_scores_bounds portal_vein_status p hp
    obtain ⟨h7, h8⟩ := shunt_score_bounds shunt_fraction
    obtain ⟨h9, h10⟩ := meld3_score_bounds meld3
    obtain ⟨h11, h12⟩ := albumin_score_bounds albumin
    obtain ⟨h13, h14⟩ := alt_ast_score_bounds alt_ast_ratio
    obtain ⟨h15, h16⟩ := nlr_score_bounds nlr
    obtain ⟨h17, h18⟩ := ecog_score_bounds ecog
    omega

/-- Witness for C1: the range invariant at the concrete valid input of the
spec's first end-to-end scenario. -/
theorem y90rs_range_invariant_witness :
    ∃ n : ℤ, calculate_y90rs 2 50 10 "No thrombosis" 3 8 40 1 (3/2) 0 = some n ∧
      0 ≤ n ∧ n ≤ 23 :=
  y90rs_range_invariant 2 50 10 "No thrombosis" 3 8 40 1 (3/2) 0
    (by norm_num) (by norm_num) (by norm_num) (by decide) (by norm_num)
    (by norm_num) (by norm_num) (by norm_num) (by norm_num) (by norm_num)
    (by norm_num)

/-- C2: the risk classifier is total over all integer scores and evaluated in
order — score ≤ 6 is Low Risk with band below 10 percent, 6 < score ≤ 12 is
Intermediate Risk with band 10-30 percent, 12 < score is High Risk with band
above 30 percent; in particular score 6 is Low, 7 and 12 Intermediate, and
13 High. -/
theorem risk_classify_thresholds (score : ℤ) :
    (score ≤ 6 → risk_classify score = ("Low Risk", "<10%")) ∧
    (6 < score → score ≤ 12 → risk_classify score = ("Intermediate Risk", "10-30%")) ∧
    (12 < score → risk_classify score = ("High Risk", ">30%")) ∧
    risk_classify 6 = ("Low Risk", "<10%") ∧
    risk_classify 7 = ("Intermediate Risk", "10-30%") ∧
    risk_classify 12 = ("Intermediate Risk", "10-30%") ∧
    risk_classify 13 = ("High Risk", ">30%") := by
  refine ⟨?_, ?_, ?_, rfl, rfl, rfl, rfl⟩
  · intro h
    rw [risk_classify, if_pos h]
  · intro h1 h2
    rw [risk_classify, if_neg (by omega), if_pos h2]
  · intro h
    rw [risk_classify, if_neg (by omega), if_neg (by omega)]

/-- C10: every score `calculate_y90rs` actually returns is at most 22 — the
nine sub-score maxima 4, 3, 3, 2, 2, 2, 2, 2, 2 sum to 22, so the value 23 of
the documented range is never produced. -/
theorem y90rs_score_at_most_22 (tumor_size tumor_volume afp : ℚ)
    (portal_vein_status : String) (shunt_fraction : ℚ) (meld3 : ℤ)
    (albumin alt_ast_ratio nlr : ℚ) (ecog : ℤ) (n : ℤ)
    (h : calculate_y90rs tumor_size tumor_volume afp portal_vein_status
      shunt_fraction meld3 albumin alt_ast_ratio nlr ecog = some n) :
    n ≤ 22 := by
  unfold calculate_y90rs at h
  cases hp : portal_vein_scores portal_vein_status with
  | none => rw [hp] at h; simp at h
  | some p =>
    rw [hp, Option.map_some', Option.some.injEq] at h
    obtain ⟨h1, h2⟩ := size_volume_score_bounds tumor_size tumor_volume
    obtain ⟨h3, h4⟩ := afp_score_bounds afp
    obtain ⟨h5, h6⟩ := portal_vein_scores_bounds portal_vein_status p hp
    obtain ⟨h7, h8⟩ := shunt_score_bounds shunt_fraction
    obtain ⟨h9, h10⟩ := meld3_score_bounds meld3
    obtain ⟨h11, h12⟩ := albumin_score_bounds albumin
    obtain ⟨h13, h14⟩ := alt_ast_score_bounds alt_ast_ratio
    obtain ⟨h15, h16⟩ := nlr_score_bounds nlr
    obtain ⟨h17, h18⟩ := ecog_score_bounds ecog
    omega

/-- Witness for C10: the bound applied at an input where every sub-score is
maximal; the score reached there is exactly 22. -/
theorem y90rs_score_at_most_22_witness :
    calculate_y90rs 100 1000 2000 "Main/Lobar tumor thrombosis" 50 20 10 3 10 3 =
      some 22 ∧ (22 : ℤ) ≤ 22 := by
  have hev : calculate_y90rs 100 1000 2000 "Main/Lobar tumor thrombosis"
      50 20 10 3 10 3 = some 22 := by
    rw [calculate_y90rs_some 100 1000 2000 "Main/Lobar tumor thrombosis"
      50 20 10 3 10 3 3 rfl]
    norm_num [size_volume_score, afp_score, shunt_score, meld3_score,
      albumin_score, alt_ast_score, nlr_score, ecog_score]
  exact ⟨hev, y90rs_score_at_most_22 100 1000 2000 "Main/Lobar tumor thrombosis"
    50 20 10 3 10 3 22 hev⟩

/-- C3: the size/volume joint sub-score follows exactly the source's branch
order — 0 on the first condition, 1 on the second (the three-way disjunction)
when the first fails, 2 on the third when the first two fail, else 4 — and its
value is always one of 0, 1, 2, 4; the value 3 is never produced. -/
theorem size_volume_branches (d v : ℚ) :
    (d ≤ 3 ∧ v ≤ 100 → size_volume_score d v = 0) ∧
    (¬(d ≤ 3 ∧ v ≤ 100) →
      (d ≤ 5 ∧ v ≤ 300) ∨ (d ≤ 3 ∧ v ≤ 300) ∨ (d ≤ 5 ∧ v ≤ 100) →
      size_volume_score d v = 1) ∧
    (¬(d ≤ 3 ∧ v ≤ 100) →
      ¬((d ≤ 5 ∧ v ≤ 300) ∨ (d ≤ 3 ∧ v ≤ 300) ∨ (d ≤ 5 ∧ v ≤ 100)) →
      d ≤ 8 ∧ v ≤ 500 → size_volume_score d v = 2) ∧
    (¬(d ≤ 3 ∧ v ≤ 100) →
      ¬((d ≤ 5 ∧ v ≤ 300) ∨ (d ≤ 3 ∧ v ≤ 300) ∨ (d ≤ 5 ∧ v ≤ 100)) →
      ¬(d ≤ 8 ∧ v ≤ 500) → size_volume_score d v = 4) ∧
    (size_volume_score d v = 0 ∨ size_volume_score d v = 1 ∨
      size_volume_score d v = 2 ∨ size_volume_score d v = 4) ∧
    size_volume_score d v ≠ 3 := by
  refine ⟨fun h => ?_, fun h1 h2 => ?_, fun h1 h2 h3 => ?_, fun h1 h2 h3 => ?_, ?_, ?_⟩
  · unfold size_volume_score
    rw [if_pos h]
  · unfold size_volume_score
    rw [if_neg h1, if_pos h2]
  · unfold size_volume_score
    rw [if_neg h1, if_neg h2, if_pos h3]
  · unfold size_volume_score
    rw [if_neg h1, if_neg h2, if_neg h3]
  · unfold size_volume_score
    split_ifs <;> norm_num
  · unfold size_volume_score
    split_ifs <;> norm_num

/-- C4: every numeric threshold of `calculate_y90rs` is inclusive on its
upper bound, so an input exactly at a threshold routes to the lower-scoring
branch: NLR 2.5 gives 0 and 2.51 gives 1, ECOG 2 gives 1 and 3 gives 2,
diameter 3 with volume 100 gives 0, shunt 5 gives 0 and 10 gives 1, and
likewise for the AFP, MELD3, albumin and ALT/AST thresholds. -/
theorem thresholds_inclusive :
    nlr_score (5/2) = 0 ∧ nlr_score (251/100) = 1 ∧
    ecog_score 2 = 1 ∧ ecog_score 3 = 2 ∧
    size_volume_score 3 100 = 0 ∧
    shunt_score 5 = 0 ∧ shunt_score 10 = 1 ∧
    afp_score 20 = 0 ∧ afp_score 400 = 1 ∧ afp_score 1000 = 2 ∧
    meld3_score 10 = 0 ∧ meld3_score 14 = 1 ∧
    albumin_score 35 = 0 ∧ albumin_score 28 = 1 ∧
    alt_ast_score (3/2) = 0 ∧ alt_ast_score 2 = 1 ∧
    nlr_score 4 = 1 ∧ size_volume_score 5 300 = 1 ∧ size_volume_score 8 500 = 2 := by
  norm_num [nlr_score, ecog_score, size_volume_score, shunt_score, afp_score,
    meld3_score, albumin_score, alt_ast_score]

/-- C5: after unit conversion, `calculate_meld3` clamps before use —
bilirubin floored at 1 mg/dL with no ceiling, creatinine clamped to [1, 4]
mg/dL, INR floored at 1 with no ceiling, sodium clamped to [125, 137]; in
particular sodium 110 is used as 125, sodium 150 as 137, and a converted
creatinine above 4 mg/dL as 4. -/
theorem meld3_clamping (bilirubin creatinine inr sodium : ℚ) :
    1 ≤ bilirubin_mgdl bilirubin ∧
    (1 ≤ bilirubin / (171/10) → bilirubin_mgdl bilirubin = bilirubin / (171/10)) ∧
    1 ≤ creatinine_mgdl creatinine ∧ creatinine_mgdl creatinine ≤ 4 ∧
    (4 ≤ creatinine / (884/10) → creatinine_mgdl creatinine = 4) ∧
    1 ≤ inr_clamped inr ∧ (1 ≤ inr → inr_clamped inr = inr) ∧
    125 ≤ sodium_clamped sodium ∧ sodium_clamped sodium ≤ 137 ∧
    (sodium ≤ 125 → sodium_clamped sodium = 125) ∧
    (137 ≤ sodium → sodium_clamped sodium = 137) ∧
    sodium_clamped 110 = 125 ∧ sodium_clamped 150 = 137 := by
  refine ⟨le_max_left _ _, fun h => max_eq_right h, le_max_left _ _,
    max_le (by norm_num) (min_le_left _ _), ?_, le_max_left _ _,
    fun h => max_eq_right h, le_max_left _ _,
    max_le (by norm_num) (min_le_left _ _), ?_, ?_, ?_, ?_⟩
  · intro h
    rw [creatinine_mgdl, min_eq_left h]
    norm_num
  · intro h
    rw [sodium_clamped, min_eq_right (by linarith)]
    exact max_eq_left h
  · intro h
    rw [sodium_clamped, min_eq_left h]
    norm_num
  · rw [sodium_clamped, min_eq_right (by norm_num)]
    exact max_eq_left (by norm_num)
  · rw [sodium_clamped, min_eq_left (by norm_num)]
    norm_num

/-- Witness for C5: the clamping facts instantiated at concrete lab values —
bilirubin 342, creatinine 884, INR 1.2, sodium 150. -/
theorem meld3_clamping_witness :
    1 ≤ bilirubin_mgdl 342 ∧
    (1 ≤ (342 : ℚ) / (171/10) → bilirubin_mgdl 342 = 342 / (171/10)) ∧
    1 ≤ creatinine_mgdl 884 ∧ creatinine_mgdl 884 ≤ 4 ∧
    (4 ≤ (884 : ℚ) / (884/10) → creatinine_mgdl 884 = 4) ∧
    1 ≤ inr_clamped (6/5) ∧ (1 ≤ (6/5 : ℚ) → inr_clamped (6/5) = 6/5) ∧
    125 ≤ sodium_clamped 150 ∧ sodium_clamped 150 ≤ 137 ∧
    ((150 : ℚ) ≤ 125 → sodium_clamped 150 = 125) ∧
    ((137 : ℚ) ≤ 150 → sodium_clamped 150 = 137) ∧
    sodium_clamped 110 = 125 ∧ sodium_clamped 150 = 137 :=
  meld3_clamping 342 884 (6/5) 150

/-- C6: `calculate_meld3` is total — for every rational input, including zero
and negative raw values, each of the three clamped values that feed a
logarithm (bilirubin, INR, creatinine) is at least 1 and hence strictly
positive, so no logarithm domain error can occur. -/
theorem meld3_log_args_safe (bilirubin creatinine inr : ℚ) :
    (1 ≤ bilirubin_mgdl bilirubin ∧ 0 < bilirubin_mgdl bilirubin) ∧
    (1 ≤ inr_clamped inr ∧ 0 < inr_clamped inr) ∧
    (1 ≤ creatinine_mgdl creatinine ∧ 0 < creatinine_mgdl creatinine) :=
  ⟨⟨le_max_left _ _, lt_of_lt_of_le one_pos (le_max_left _ _)⟩,
    ⟨le_max_left _ _, lt_of_lt_of_le one_pos (le_max_left _ _)⟩,
    ⟨le_max_left _ _, lt_of_lt_of_le one_pos (le_max_left _ _)⟩⟩

lemma portal_vein_scores_none_iff (s : String) :
    portal_vein_scores s = none ↔ s ∉ portal_vein_keys := by
  unfold portal_vein_scores portal_vein_keys
  split_ifs with h1 h2 h3 h4 <;> simp_all

/-- C7: the portal-vein dictionary maps the four enumerated statuses to
0, 1, 2, 3 in order, and `calculate_y90rs` fails (returns no score, the
KeyError of the source) exactly when the status is none of the four keys. -/
theorem portal_vein_mapping (tumor_size tumor_volume afp shunt_fraction
    albumin alt_ast_ratio nlr : ℚ) (meld3 ecog : ℤ) (portal_vein_status : String) :
    portal_vein_scores "No thrombosis" = some 0 ∧
    portal_vein_scores "Bland thrombosis" = some 1 ∧
    portal_vein_scores "Segmental tumor thrombosis" = some 2 ∧
    portal_vein_scores "Main/Lobar tumor thrombosis" = some 3 ∧
    (calculate_y90rs tumor_size tumor_volume afp portal_vein_status
        shunt_fraction meld3 albumin alt_ast_ratio nlr ecog = none ↔
      portal_vein_status ∉ portal_vein_keys) := by
  refine ⟨rfl, rfl, rfl, rfl, ?_⟩
  rw [← portal_vein_scores_none_iff]
  unfold calculate_y90rs
  exact Option.map_eq_none'

/-- C8: the spec's second end-to-end scenario — diameter 6, volume 400,
AFP 500, segmental tumor thrombosis, shunt 8, MELD3 12, albumin 30, ALT/AST
ratio 1.8, NLR 3.0, ECOG 2 — scores 2+2 for tumor burden, 2+1 vascular,
1+1+1 liver function, 1+1 inflammatory/performance, total 12, which the
classifier calls Intermediate Risk. -/
theorem scenario_intermediate :
    size_volume_score 6 400 = 2 ∧ afp_score 500 = 2 ∧
    portal_vein_scores "Segmental tumor thrombosis" = some 2 ∧
    shunt_score 8 = 1 ∧ meld3_score 12 = 1 ∧ albumin_score 30 = 1 ∧
    alt_ast_score (9/5) = 1 ∧ nlr_score 3 = 1 ∧ ecog_score 2 = 1 ∧
    calculate_y90rs 6 400 500 "Segmental tumor thrombosis" 8 12 30 (9/5) 3 2 =
      some 12 ∧
    risk_classify 12 = ("Intermediate Risk", "10-30%") := by
  have hc : calculate_y90rs 6 400 500 "Segmental tumor thrombosis"
      8 12 30 (9/5) 3 2 = some 12 := by
    rw [calculate_y90rs_some 6 400 500 "Segmental tumor thrombosis"
      8 12 30 (9/5) 3 2 2 rfl]
    norm_num [size_volume_score, afp_score, shunt_score, meld3_score,
      albumin_score, alt_ast_score, nlr_score, ecog_score]
  refine ⟨?_, ?_, rfl, ?_, ?_, ?_, ?_, ?_, ?_, hc, rfl⟩ <;>
    norm_num [size_volume_score, afp_score, shunt_score, meld3_score,
      albumin_score, alt_ast_score, nlr_score, ecog_score]

lemma second_branch_iff (d v : ℚ) :
    ((d ≤ 5 ∧ v ≤ 300) ∨ (d ≤ 3 ∧ v ≤ 300) ∨ (d ≤ 5 ∧ v ≤ 100)) ↔
      d ≤ 5 ∧ v ≤ 300 := by
  constructor
  · rintro (h | ⟨hd, hv⟩ | ⟨hd, hv⟩)
    · exact h
    · exact ⟨hd.trans (by norm_num), hv⟩
    · exact ⟨hd, hv.trans (by norm_num)⟩
  · exact Or.inl

lemma size_volume_simplified_pointwise (d v : ℚ) :
    size_volume_score_simplified d v = size_volume_score d v := by
  unfold size_volume_score_simplified size_volume_score
  simp only [second_branch_iff]

/-- Counterexample to C9: the evaluator with the logically simplified second
branch is extensionally EQUAL to the literal one — the claimed behavioural
difference does not exist for any input. -/
theorem size_volume_simplified_extensionally_equal :
    size_volume_score_simplified = size_volume_score :=
  funext fun d => funext fun v => size_volume_simplified_pointwise d v

/-- C9 amended: the three OR-conditions of the second tumor-burden branch are
mathematically redundant — the disjunction is logically equivalent to its
first disjunct (diameter ≤ 5 and volume ≤ 300) — and replacing the branch
condition with that simplification yields an evaluator extensionally equal to
the literal one, changing the score for no input. -/
theorem size_volume_branch_redundant (d v : ℚ) :
    (((d ≤ 5 ∧ v ≤ 300) ∨ (d ≤ 3 ∧ v ≤ 300) ∨ (d ≤ 5 ∧ v ≤ 100)) ↔
      d ≤ 5 ∧ v ≤ 300) ∧
    size_volume_score_simplified d v = size_volume_score d v :=
  ⟨second_branch_iff d v, size_volume_simplified_pointwise d v⟩

end Y90RS
